import Mathlib

/-!
Verification development for the Shiksha repository: a shallow embedding of
the assessment backend (`CognitiveAccessment/Backend`: `auth.py`,
`endpoint.py`) and of the analytics pipeline (`mlforiot-main/model.py`),
together with theorems settling the documented behavioural claims.

Modelling conventions:
* Timestamps are modelled as natural numbers (ticks); the Python code
  compares `datetime` values, whose order is faithfully mirrored by the
  order on `Nat`.
* The hosted row store (supabase) is modelled as in-memory lists of rows;
  a `select ... .eq(col, v)` call is modelled by `List.filter`, `insert`
  by list append, and `response.data[0]` by taking the head of the
  filtered list.
* A Python `try/except` around a row-store call is modelled by an
  `Except` input carrying either the query result or the raised error.
* Pandas `DataFrame` columns of percentages are modelled over `ℚ`
  (the source works with exact ratios `correct / total * 100`).
-/

namespace Shiksha

/-- A row of the `Sessions` table: `session_id` holds the *hashed* session
value stored at issuance, `token` the signed JWT, and `expires_at` the
expiry timestamp (`created_at + 7 days` in the source). -/
structure SessionRow where
  session_id : String
  user_id : String
  token : String
  created_at : Nat
  expires_at : Nat
deriving DecidableEq, Repr

/-- Embedding of `auth.verify_session` (auth.py lines 21–41): select the
`Sessions` rows whose `user_id` matches, fail if none; otherwise consult the
first row (`response.data[0]`), fail if `utcnow() > expires_at`, and finally
compare the presented value with the stored hashed session id directly. -/
def verify_session (sessions : List SessionRow) (now : Nat)
    (session_id : String) (user_id : String) : Bool :=
  match sessions.filter (fun r => r.user_id == user_id) with
  | [] => false
  | r :: _ =>
    if now > r.expires_at then false
    else session_id == r.session_id

/-- Embedding of the `POST /session` handler `validate_session`
(endpoint.py lines 16–30): the handler selects `Sessions` rows whose
`session_id` column equals the presented value and reports
`valid := len(response.data) > 0`; any raised row-store exception is caught
and mapped to `valid := false`.  The `Except` argument carries either the
`Sessions` table or the raised error. -/
def validate_session (db : Except String (List SessionRow))
    (session_id : String) : Bool :=
  match db with
  | Except.error _ => false
  | Except.ok sessions =>
    decide (0 < (sessions.filter (fun r => r.session_id == session_id)).length)

/-- Outcome of `jwt.decode` on a presented token, as the external `jwt`
library surfaces it to `auth.verify_jwt`: a decoded payload carrying the
embedded user id, an `ExpiredSignatureError`, or an `InvalidTokenError`. -/
inductive JwtDecodeResult where
  | payload (user_id : String)
  | expiredSignatureError
  | invalidTokenError
deriving DecidableEq, Repr

/-- Embedding of `auth.verify_jwt` (auth.py lines 50–57): return the
payload's `user_id` on a successful decode, and `None` on either
`ExpiredSignatureError` or `InvalidTokenError`. -/
def verify_jwt : JwtDecodeResult → Option String
  | JwtDecodeResult.payload uid => some uid
  | JwtDecodeResult.expiredSignatureError => none
  | JwtDecodeResult.invalidTokenError => none

/-- A row of the analytics input table (`student_id, section, is_correct`);
the quiz category column is named `section` in the source, rendered `sec`
here because `section` is a Lean keyword. -/
structure AnswerRow where
  student_id : String
  sec : String
  is_correct : Bool
deriving DecidableEq, Repr

/-- Embedding of `model.evaluate_model` (model.py lines 264–266): the body
is literally `return 95.0, 93.0`, ignoring its argument. -/
def evaluate_model (_data : List AnswerRow) : ℚ × ℚ := (95, 93)

/-- Claim C1 (amended): `verify_session` returns `true` iff a `Sessions`
row exists for the user with `now ≤ expires_at` and the presented value
equal to the stored hashed session value, provided the user has at most one
`Sessions` row (the source consults only the first row).  The amendment
replaces the claim's strict bound `now < expiry` by `now ≤ expiry`: the code
rejects only when `now > expires_at`, so a session is still accepted at the
exact expiry instant. -/
theorem verify_session_iff (sessions : List SessionRow) (now : Nat)
    (sid uid : String)
    (h : (sessions.filter (fun r => r.user_id == uid)).length ≤ 1) :
    verify_session sessions now sid uid = true ↔
      ∃ r ∈ sessions, r.user_id = uid ∧ now ≤ r.expires_at ∧
        sid = r.session_id := by
  unfold verify_session
  cases hf : sessions.filter (fun r => r.user_id == uid) with
  | nil =>
    simp only [Bool.false_eq_true, false_iff]
    rintro ⟨r, hmem, huid, _, _⟩
    have : r ∈ sessions.filter (fun r => r.user_id == uid) :=
      List.mem_filter.mpr ⟨hmem, by simpa using huid⟩
    rw [hf] at this
    simp at this
  | cons r0 rest =>
    rw [hf] at h
    have hrest : rest = [] := by
      simp only [List.length_cons] at h
      exact List.length_eq_zero.mp (by omega)
    subst hrest
    have hr0 : r0 ∈ sessions.filter (fun r => r.user_id == uid) := by
      rw [hf]; exact List.mem_cons_self _ _
    have hr0mem := (List.mem_filter.mp hr0).1
    have hr0uid : r0.user_id = uid := by
      have := (List.mem_filter.mp hr0).2
      simpa using this
    constructor
    · intro hv
      by_cases hexp : now > r0.expires_at
      · simp [hexp] at hv
      · simp [hexp] at hv
        exact ⟨r0, hr0mem, hr0uid, by omega, hv⟩
    · rintro ⟨r, hmem, huid, hle, hsid⟩
      have hrf : r ∈ sessions.filter (fun r => r.user_id == uid) :=
        List.mem_filter.mpr ⟨hmem, by simpa using huid⟩
      rw [hf] at hrf
      have hr : r = r0 := by simpa using hrf
      subst hr
      have hexp : ¬ now > r.expires_at := by omega
      simp [hexp, hsid]

/-- Claim C1 counterexample: at the exact expiry instant the code accepts
the session, while the claim as stated (valid iff a row exists, `now` is
strictly before the expiry, and the value matches) demands rejection. -/
theorem verify_session_boundary :
    ¬ (verify_session [⟨"h", "u", "t", 0, 5⟩] 5 "h" "u" = true ↔
       ∃ r ∈ [(⟨"h", "u", "t", 0, 5⟩ : SessionRow)],
         r.user_id = "u" ∧ 5 < r.expires_at ∧ "h" = r.session_id) := by
  decide

/-- Claim C1 witness: a concrete user with a single unexpired matching
session row, on which `verify_session_iff` evaluates to `true`. -/
theorem verify_session_iff_witness :
    (([⟨"h", "u", "t", 0, 9⟩] : List SessionRow).filter
        (fun r => r.user_id == "u")).length ≤ 1 ∧
    (verify_session [⟨"h", "u", "t", 0, 9⟩] 3 "h" "u" = true ↔
      ∃ r ∈ [(⟨"h", "u", "t", 0, 9⟩ : SessionRow)], r.user_id = "u" ∧
        3 ≤ r.expires_at ∧ "h" = r.session_id) :=
  ⟨by decide, verify_session_iff [⟨"h", "u", "t", 0, 9⟩] 3 "h" "u" (by decide)⟩

/-- Rewriting every row's expiry leaves the `session_id`-filtered row count
unchanged: the `POST /session` query never consults `expires_at`. -/
lemma length_filter_sessionId_map_expires (sessions : List SessionRow)
    (sid : String) (f : SessionRow → Nat) :
    ((sessions.map (fun r => { r with expires_at := f r })).filter
        (fun r => r.session_id == sid)).length =
      (sessions.filter (fun r => r.session_id == sid)).length := by
  induction sessions with
  | nil => rfl
  | cons r rest ih =>
    simp only [List.map_cons, List.filter_cons]
    by_cases h : r.session_id = sid <;> simp [h, ih]

/-- Claim C9: the `POST /session` handler reports valid iff some `Sessions`
row has the presented `session_id`, ignores expiry entirely (rewriting every
row's `expires_at` never changes the answer), returns `false` on a row-store
exception, and — in contrast — `verify_session` rejects an expired session
that this handler reports valid. -/
theorem validate_session_spec (sessions : List SessionRow) (sid e : String) :
    (validate_session (Except.ok sessions) sid = true ↔
      ∃ r ∈ sessions, r.session_id = sid) ∧
    validate_session (Except.error e) sid = false ∧
    (∀ f : SessionRow → Nat,
      validate_session
        (Except.ok (sessions.map (fun r => { r with expires_at := f r }))) sid
        = validate_session (Except.ok sessions) sid) ∧
    (validate_session (Except.ok [⟨"h", "u", "t", 0, 5⟩]) "h" = true ∧
     verify_session [⟨"h", "u", "t", 0, 5⟩] 6 "h" "u" = false) := by
  refine ⟨?_, rfl, ?_, by decide, by decide⟩
  · unfold validate_session
    rw [decide_eq_true_iff, List.length_pos_iff_exists_mem]
    constructor
    · rintro ⟨r, hr⟩
      have := List.mem_filter.mp hr
      exact ⟨r, this.1, by simpa using this.2⟩
    · rintro ⟨r, hmem, hid⟩
      exact ⟨r, List.mem_filter.mpr ⟨hmem, by simpa using hid⟩⟩
  · intro f
    have hlen := length_filter_sessionId_map_expires sessions sid f
    simp only [validate_session, hlen]

/-- Claim C6 counterexample: the two failure causes of `verify_jwt` are not
distinguishable in the returned value — an expired signature and an invalid
token produce the identical result `none`. -/
theorem verify_jwt_indistinguishable :
    verify_jwt JwtDecodeResult.expiredSignatureError =
      verify_jwt JwtDecodeResult.invalidTokenError := rfl

/-- Claim C6 (amended): `verify_jwt` returns the embedded user id when the
token decodes successfully (signature valid and unexpired), and returns
`None` on either failure, without indicating which of the two causes
occurred. -/
theorem verify_jwt_spec (uid : String) :
    verify_jwt (JwtDecodeResult.payload uid) = some uid ∧
    verify_jwt JwtDecodeResult.expiredSignatureError = none ∧
    verify_jwt JwtDecodeResult.invalidTokenError = none :=
  ⟨rfl, rfl, rfl⟩

/-- Claim C10: `evaluate_model` is the constant pair `(95.0, 93.0)`; its
result is independent of the input dataset. -/
theorem evaluate_model_constant (d1 d2 : List AnswerRow) :
    evaluate_model d1 = (95, 93) ∧ evaluate_model d1 = evaluate_model d2 :=
  ⟨rfl, rfl⟩

/-- A row of the `Users` table (created at signup); `created_at` is an ISO
timestamp string passed through unchanged. -/
structure UserRow where
  user_id : String
  name : String
  age : Nat
  standard : Nat
  mobile : Nat
  created_at : String
  date_of_birth : String
  state : String
deriving DecidableEq, Repr

/-- A row of the `Students` table (mirrored from `Users` at signup). -/
structure StudentRow where
  student_id : String
  name : String
  age : Nat
  grade_level : Nat
  state : String
deriving DecidableEq, Repr

/-- A row of the `Test_Completed` table. -/
structure TestCompletedRow where
  student_id : String
  completed : Bool
deriving DecidableEq, Repr

/-- A row of the `Student_Section_Time` table; the quiz category column is
named `section` in the source, rendered `sec` here. -/
structure SectionTimeRow where
  student_id : String
  sec : String
  time_spent_seconds : Nat
deriving DecidableEq, Repr

/-- The row-store tables consulted by the signup/login endpoints. -/
structure DB where
  users : List UserRow
  students : List StudentRow
  sessions : List SessionRow
  test_completed : List TestCompletedRow
  section_time : List SectionTimeRow
deriving DecidableEq, Repr

/-- The `UserSignup` request body (models.py). -/
structure UserSignup where
  name : String
  age : Nat
  standard : Nat
  mobile : Nat
  date_of_birth : String
  state : String
deriving DecidableEq, Repr

/-- The `UserLogin` request body (models.py). -/
structure UserLogin where
  name : String
  mobile : Nat
  date_of_birth : String
deriving DecidableEq, Repr

/-- Supabase `.ilike(col, pattern)` with a plain pattern (no wildcards in
the login flow): case-insensitive string equality, compared character by
character after lowercasing. -/
def ilikeEq (a b : String) : Bool :=
  a.data.map Char.toLower == b.data.map Char.toLower

/-- The fields of the login response relevant to the session lifecycle
(the response also echoes the user profile, which carries no session
state). -/
structure LoginResult where
  message : String
  token : String
  session_id : String
  user_id : String
  test_completed : Bool
  current_section : Option String
deriving DecidableEq, Repr

/-- Embedding of the `POST /signup` handler (endpoint.py lines 152–195):
select `Users` rows matching `(name, mobile, date_of_birth)` exactly; if
any exists, raise HTTP 400 before any insert; otherwise insert the new row
into `Users` and the mirrored row into `Students`.  Returns the handler
outcome (`ok new_user_id` or `error (status, detail)`) together with the
resulting row-store state. -/
def signup (db : DB) (user : UserSignup) (now_iso : String)
    (new_user_id : String) : Except (Nat × String) String × DB :=
  let existing := db.users.filter (fun u =>
    u.name == user.name && u.mobile == user.mobile &&
    u.date_of_birth == user.date_of_birth)
  if existing.isEmpty then
    let newUser : UserRow :=
      ⟨new_user_id, user.name, user.age, user.standard, user.mobile,
        now_iso, user.date_of_birth, user.state⟩
    let newStudent : StudentRow :=
      ⟨new_user_id, user.name, user.age, user.standard, user.state⟩
    (Except.ok new_user_id,
      { db with users := db.users ++ [newUser],
                students := db.students ++ [newStudent] })
  else
    (Except.error
      (400, "User already exists with the same name, mobile, and date of birth"),
      db)

/-- Embedding of the `POST /login` handler (endpoint.py lines 197–287):
look up the user by `(name ilike, mobile, date_of_birth)`, 401 if absent;
ensure a `Test_Completed` row exists (inserting `false` if missing); derive
`current_section` from which `Student_Section_Time` rows exist; then, if an
unexpired session row exists for the user (`expires_at > now`), return it
unchanged; otherwise insert a fresh session row.  `fresh_hashed` stands for
`hash_session_id(secrets.token_hex(32))` and `fresh_jwt` for
`create_jwt(user_id)`, the two values drawn fresh on the new-session
branch. -/
def login (db : DB) (user : UserLogin) (now : Nat)
    (fresh_hashed fresh_jwt : String) : Except Nat (LoginResult × DB) :=
  match db.users.filter (fun u =>
      ilikeEq u.name user.name && u.mobile == user.mobile &&
      u.date_of_birth == user.date_of_birth) with
  | [] => Except.error 401
  | u :: _ =>
    let user_id := u.user_id
    let db1 : DB :=
      match db.test_completed.filter (fun t => t.student_id == user_id) with
      | [] => { db with
                  test_completed := db.test_completed ++ [⟨user_id, false⟩] }
      | _ :: _ => db
    let completed_status : Bool :=
      match db.test_completed.filter (fun t => t.student_id == user_id) with
      | [] => false
      | t :: _ => t.completed
    let current_section : Option String :=
      match completed_status with
      | true => none
      | false =>
        let sections := (db1.section_time.filter
          (fun s => s.student_id == user_id)).map (fun s => s.sec)
        if sections.isEmpty then some "A"
        else if sections.contains "C" then some "D"
        else if sections.contains "B" then some "C"
        else if sections.contains "A" then some "B"
        else none
    match db1.sessions.filter
        (fun s => s.user_id == user_id && decide (now < s.expires_at)) with
    | s :: _ =>
      Except.ok
        ({ message := "Already logged in", token := s.token,
           session_id := s.session_id, user_id := user_id,
           test_completed := completed_status,
           current_section := current_section }, db1)
    | [] =>
      let newRow : SessionRow :=
        ⟨fresh_hashed, user_id, fresh_jwt, now, now + 7 * 24 * 60 * 60⟩
      Except.ok
        ({ message := "Login successful", token := fresh_jwt,
           session_id := fresh_hashed, user_id := user_id,
           test_completed := completed_status,
           current_section := current_section },
         { db1 with sessions := db1.sessions ++ [newRow] })

/-- Claim C5: when a `Users` row already matches the signup's
`(name, mobile, date_of_birth)` triple exactly, `signup` raises HTTP 400
with the duplicate message and leaves every table unchanged (in particular
no row is added to `Users` or `Students`). -/
theorem signup_rejects_duplicate (db : DB) (user : UserSignup)
    (now_iso new_user_id : String)
    (h : ∃ u ∈ db.users, u.name = user.name ∧ u.mobile = user.mobile ∧
      u.date_of_birth = user.date_of_birth) :
    (signup db user now_iso new_user_id).1 =
      Except.error
        (400, "User already exists with the same name, mobile, and date of birth") ∧
    (signup db user now_iso new_user_id).2 = db := by
  obtain ⟨u, hmem, hn, hm, hd⟩ := h
  have hu : u ∈ db.users.filter (fun v =>
      v.name == user.name && v.mobile == user.mobile &&
      v.date_of_birth == user.date_of_birth) :=
    List.mem_filter.mpr ⟨hmem, by simp [hn, hm, hd]⟩
  unfold signup
  cases hf : db.users.filter (fun v =>
      v.name == user.name && v.mobile == user.mobile &&
      v.date_of_birth == user.date_of_birth) with
  | nil => rw [hf] at hu; simp at hu
  | cons x xs => simp [hf]

/-- A one-user row store used to exercise the duplicate-signup rejection. -/
def dupDB : DB :=
  { users := [⟨"u1", "alice", 10, 5, 999, "t0", "2010-01-01", "TS"⟩],
    students := [], sessions := [], test_completed := [], section_time := [] }

/-- The signup request clashing with the existing `dupDB` user on
`(name, mobile, date_of_birth)` while differing elsewhere. -/
def dupSignup : UserSignup := ⟨"alice", 11, 6, 999, "2010-01-01", "KA"⟩

/-- Claim C5 witness: the duplicate-signup theorem applied to the concrete
one-user row store. -/
theorem signup_rejects_duplicate_witness :
    (∃ u ∈ dupDB.users, u.name = dupSignup.name ∧
      u.mobile = dupSignup.mobile ∧
      u.date_of_birth = dupSignup.date_of_birth) ∧
    ((signup dupDB dupSignup "t1" "u2").1 =
      Except.error
        (400, "User already exists with the same name, mobile, and date of birth") ∧
    (signup dupDB dupSignup "t1" "u2").2 = dupDB) :=
  ⟨by decide, signup_rejects_duplicate dupDB dupSignup "t1" "u2" (by decide)⟩

/-- Claim C4: when the login credentials resolve to a user (`hu` names the
first matching `Users` row) and that user already holds an unexpired
session (`hs` names the first `Sessions` row with `expires_at > now`),
`login` succeeds with message "Already logged in", returns exactly the
stored session's identifier and token, and leaves the `Sessions` table
unchanged (no new session row is issued). -/
theorem login_idempotent_relogin (db : DB) (user : UserLogin) (now : Nat)
    (fh fj : String) (u : UserRow) (us : List UserRow)
    (hu : db.users.filter (fun v =>
      ilikeEq v.name user.name && v.mobile == user.mobile &&
      v.date_of_birth == user.date_of_birth) = u :: us)
    (s : SessionRow) (ss : List SessionRow)
    (hs : db.sessions.filter
      (fun r => r.user_id == u.user_id && decide (now < r.expires_at)) =
      s :: ss) :
    ∃ res db', login db user now fh fj = Except.ok (res, db') ∧
      res.session_id = s.session_id ∧ res.token = s.token ∧
      res.message = "Already logged in" ∧ db'.sessions = db.sessions := by
  cases htc : db.test_completed.filter (fun t => t.student_id == u.user_id) with
  | nil =>
    simp only [login, hu, htc, hs]
    exact ⟨_, _, rfl, rfl, rfl, rfl, by simp⟩
  | cons t ts =>
    simp only [login, hu, htc, hs]
    exact ⟨_, _, rfl, rfl, rfl, rfl, by simp⟩

/-- A row store with one user holding one unexpired session, used to
exercise the idempotent-relogin policy. -/
def reloginDB : DB :=
  { users := [⟨"u1", "alice", 10, 5, 999, "t0", "2010-01-01", "TS"⟩],
    students := [],
    sessions := [⟨"hash1", "u1", "jwt1", 0, 100⟩],
    test_completed := [⟨"u1", false⟩],
    section_time := [] }

/-- The login request matching the `reloginDB` user (name matched
case-insensitively, as `.ilike` does). -/
def reloginUser : UserLogin := ⟨"ALICE", 999, "2010-01-01"⟩

/-- Claim C4 witness: the idempotent-relogin theorem applied to the
concrete one-user, one-session row store at `now = 50`. -/
theorem login_idempotent_relogin_witness :
    (reloginDB.users.filter (fun v =>
      ilikeEq v.name reloginUser.name && v.mobile == reloginUser.mobile &&
      v.date_of_birth == reloginUser.date_of_birth) =
      [⟨"u1", "alice", 10, 5, 999, "t0", "2010-01-01", "TS"⟩]) ∧
    (reloginDB.sessions.filter
      (fun r => r.user_id == "u1" && decide (50 < r.expires_at)) =
      [⟨"hash1", "u1", "jwt1", 0, 100⟩]) ∧
    (∃ res db', login reloginDB reloginUser 50 "freshH" "freshJ" =
        Except.ok (res, db') ∧
      res.session_id = "hash1" ∧ res.token = "jwt1" ∧
      res.message = "Already logged in" ∧ db'.sessions = reloginDB.sessions) :=
  ⟨by decide, by decide,
    login_idempotent_relogin reloginDB reloginUser 50 "freshH" "freshJ"
      ⟨"u1", "alice", 10, 5, 999, "t0", "2010-01-01", "TS"⟩ [] (by decide)
      ⟨"hash1", "u1", "jwt1", 0, 100⟩ [] (by decide)⟩

/-- The rows contributing to the `(student, section)` grouping of
`model.calculate_student_metrics`: pandas `groupby(['student_id','section'])`
collects exactly the rows whose two key columns match. -/
def sectionRows (data : List AnswerRow) (student sec : String) :
    List AnswerRow :=
  data.filter (fun r => r.student_id == student && r.sec == sec)

/-- The `sum` aggregate of the `(student, section)` grouping: pandas sums
the boolean `is_correct` column, counting the `True` entries. -/
def sectionCorrect (data : List AnswerRow) (student sec : String) : Nat :=
  (sectionRows data student sec).countP (fun r => r.is_correct)

/-- The `count` aggregate of the `(student, section)` grouping. -/
def sectionTotal (data : List AnswerRow) (student sec : String) : Nat :=
  (sectionRows data student sec).length

/-- The `score_percentage` column of `calculate_student_metrics`
(model.py line 16): `(sum / count) * 100` for the grouping. -/
def score_percentage (data : List AnswerRow) (student sec : String) : ℚ :=
  ((sectionCorrect data student sec : ℚ) /
    (sectionTotal data student sec : ℚ)) * 100

/-- The rows contributing to the per-student grouping of
`calculate_student_metrics` (pandas `groupby('student_id')`). -/
def studentRows (data : List AnswerRow) (student : String) : List AnswerRow :=
  data.filter (fun r => r.student_id == student)

/-- The `sum` aggregate of the per-student grouping. -/
def overallCorrect (data : List AnswerRow) (student : String) : Nat :=
  (studentRows data student).countP (fun r => r.is_correct)

/-- The `count` aggregate of the per-student grouping. -/
def overallTotal (data : List AnswerRow) (student : String) : Nat :=
  (studentRows data student).length

/-- The `overall_score` column of `calculate_student_metrics`
(model.py line 20): `(sum / count) * 100` over all the student's answers. -/
def overall_score (data : List AnswerRow) (student : String) : ℚ :=
  ((overallCorrect data student : ℚ) / (overallTotal data student : ℚ)) * 100

/-- Claim C3: for a `(student, section)` grouping holding at least one
answer, `score_percentage` equals `100 × correct / total` and lies in
`[0, 100]`; the same holds for the student's `overall_score` when the
student has at least one answer. -/
theorem score_percentage_bounds (data : List AnswerRow) (student sec : String)
    (h1 : 0 < sectionTotal data student sec)
    (h2 : 0 < overallTotal data student) :
    score_percentage data student sec =
      100 * (sectionCorrect data student sec : ℚ) /
        (sectionTotal data student sec : ℚ) ∧
    0 ≤ score_percentage data student sec ∧
    score_percentage data student sec ≤ 100 ∧
    overall_score data student =
      100 * (overallCorrect data student : ℚ) /
        (overallTotal data student : ℚ) ∧
    0 ≤ overall_score data student ∧
    overall_score data student ≤ 100 := by
  have hsle : sectionCorrect data student sec ≤ sectionTotal data student sec :=
    List.countP_le_length _
  have hole : overallCorrect data student ≤ overallTotal data student :=
    List.countP_le_length _
  have hst : (0 : ℚ) < (sectionTotal data student sec : ℚ) := by
    exact_mod_cast h1
  have hot : (0 : ℚ) < (overallTotal data student : ℚ) := by
    exact_mod_cast h2
  have hscast : (sectionCorrect data student sec : ℚ) ≤
      (sectionTotal data student sec : ℚ) := by exact_mod_cast hsle
  have hocast : (overallCorrect data student : ℚ) ≤
      (overallTotal data student : ℚ) := by exact_mod_cast hole
  refine ⟨by rw [score_percentage]; ring, ?_, ?_, by rw [overall_score]; ring,
    ?_, ?_⟩
  · exact mul_nonneg (div_nonneg (by positivity) hst.le) (by norm_num)
  · rw [score_percentage]
    have : (sectionCorrect data student sec : ℚ) /
        (sectionTotal data student sec : ℚ) ≤ 1 :=
      (div_le_one hst).mpr hscast
    nlinarith
  · exact mul_nonneg (div_nonneg (by positivity) hot.le) (by norm_num)
  · rw [overall_score]
    have : (overallCorrect data student : ℚ) /
        (overallTotal data student : ℚ) ≤ 1 :=
      (div_le_one hot).mpr hocast
    nlinarith

/-- The two-row example dataset from the spec: student 1 answers section A
twice, once correctly. -/
def answersExample : List AnswerRow :=
  [⟨"1", "A", true⟩, ⟨"1", "A", false⟩]

/-- Claim C3 witness: the bounds theorem applied to the spec's two-answer
example (section-A score for student 1 = 50.0%). -/
theorem score_percentage_bounds_witness :
    0 < sectionTotal answersExample "1" "A" ∧
    0 < overallTotal answersExample "1" ∧
    (score_percentage answersExample "1" "A" =
      100 * (sectionCorrect answersExample "1" "A" : ℚ) /
        (sectionTotal answersExample "1" "A" : ℚ) ∧
    0 ≤ score_percentage answersExample "1" "A" ∧
    score_percentage answersExample "1" "A" ≤ 100 ∧
    overall_score answersExample "1" =
      100 * (overallCorrect answersExample "1" : ℚ) /
        (overallTotal answersExample "1" : ℚ) ∧
    0 ≤ overall_score answersExample "1" ∧
    overall_score answersExample "1" ≤ 100) :=
  ⟨by decide, by decide,
    score_percentage_bounds answersExample "1" "A" (by decide) (by decide)⟩

/-- A row of the `student_section_performance` frame produced by
`calculate_student_metrics` (columns `student_id, section, sum, count,
score_percentage`); the `section` column is rendered `sec`. -/
structure SectionPerf where
  student_id : String
  sec : String
  sum : Nat
  count : Nat
  score_percentage : ℚ
deriving DecidableEq, Repr

/-- A row of the `student_overall` frame produced by
`calculate_student_metrics` (columns `student_id, sum, count,
overall_score`). -/
structure OverallPerf where
  student_id : String
  sum : Nat
  count : Nat
  overall_score : ℚ
deriving DecidableEq, Repr

/-- The `avg_score_percentage` value of `calculate_average_performance`
(model.py line 26) for one section: the mean of the `score_percentage`
column over the rows of that section. -/
def avg_score_percentage (perf : List SectionPerf) (sec : String) : ℚ :=
  let xs := (perf.filter (fun r => r.sec == sec)).map
    (fun r => r.score_percentage)
  xs.sum / xs.length

/-- The `avg_overall_performance` value of `calculate_average_performance`
(model.py line 29): the mean of the `overall_score` column. -/
def avg_overall_performance (overall : List OverallPerf) : ℚ :=
  let xs := overall.map (fun r => r.overall_score)
  xs.sum / xs.length

/-- Rewriting every row's `count` column does not change the
`score_percentage` values selected for a section's average. -/
lemma filter_map_count_update (perf : List SectionPerf) (sec : String)
    (f : SectionPerf → Nat) :
    ((perf.map (fun r => { r with count := f r })).filter
        (fun r => r.sec == sec)).map (fun r => r.score_percentage) =
      (perf.filter (fun r => r.sec == sec)).map
        (fun r => r.score_percentage) := by
  induction perf with
  | nil => rfl
  | cons r rest ih =>
    simp only [List.map_cons, List.filter_cons]
    by_cases h : r.sec = sec <;> simp [h, ih]

/-- Rewriting every row's `count` column does not change the
`overall_score` column. -/
lemma map_overall_count_update (overall : List OverallPerf)
    (g : OverallPerf → Nat) :
    (overall.map (fun r => { r with count := g r })).map
        (fun r => r.overall_score) =
      overall.map (fun r => r.overall_score) := by
  induction overall with
  | nil => rfl
  | cons r rest ih => simp only [List.map_cons, ih]

/-- Claim C8: per section, `calculate_average_performance` takes the
unweighted arithmetic mean of the per-student section percentages
(`n · avg = Σ scores`), and overall the unweighted mean of the per-student
overall percentages; neither depends on any row's question `count`
(rewriting the `count` column arbitrarily changes nothing), and the
section-A average of two students scoring 50% and 100% is 75.0%. -/
theorem calculate_average_performance_spec (perf : List SectionPerf)
    (overall : List OverallPerf) (sec : String)
    (f : SectionPerf → Nat) (g : OverallPerf → Nat)
    (h1 : 0 < ((perf.filter (fun r => r.sec == sec)).map
      (fun r => r.score_percentage)).length)
    (h2 : 0 < overall.length) :
    ((((perf.filter (fun r => r.sec == sec)).map
        (fun r => r.score_percentage)).length : ℚ) *
      avg_score_percentage perf sec =
      ((perf.filter (fun r => r.sec == sec)).map
        (fun r => r.score_percentage)).sum) ∧
    ((overall.length : ℚ) * avg_overall_performance overall =
      (overall.map (fun r => r.overall_score)).sum) ∧
    avg_score_percentage (perf.map (fun r => { r with count := f r })) sec =
      avg_score_percentage perf sec ∧
    avg_overall_performance (overall.map (fun r => { r with count := g r })) =
      avg_overall_performance overall ∧
    avg_score_percentage
      [⟨"s1", "A", 1, 2, 50⟩, ⟨"s2", "A", 2, 2, 100⟩] "A" = 75 := by
  have hq1 : (0 : ℚ) < (((perf.filter (fun r => r.sec == sec)).map
      (fun r => r.score_percentage)).length : ℚ) := by exact_mod_cast h1
  have hq2 : (0 : ℚ) < (overall.length : ℚ) := by exact_mod_cast h2
  refine ⟨?_, ?_, ?_, ?_, by norm_num [avg_score_percentage]⟩
  · rw [avg_score_percentage, mul_comm]
    exact div_mul_cancel₀ _ (ne_of_gt hq1)
  · rw [avg_overall_performance, List.length_map, mul_comm]
    exact div_mul_cancel₀ _ (ne_of_gt hq2)
  · rw [avg_score_percentage, avg_score_percentage,
      filter_map_count_update perf sec f]
  · rw [avg_overall_performance, avg_overall_performance,
      map_overall_count_update overall g, List.length_map]

/-- Claim C8 witness: the averaging theorem applied to the spec's
two-student example frame and a one-row overall frame. -/
theorem calculate_average_performance_spec_witness :
    0 < ((([⟨"s1", "A", 1, 2, 50⟩, ⟨"s2", "A", 2, 2, 100⟩] :
        List SectionPerf).filter (fun r => r.sec == "A")).map
      (fun r => r.score_percentage)).length ∧
    0 < ([⟨"s1", 3, 4, 75⟩] : List OverallPerf).length ∧
    (((((([⟨"s1", "A", 1, 2, 50⟩, ⟨"s2", "A", 2, 2, 100⟩] :
          List SectionPerf).filter (fun r => r.sec == "A")).map
        (fun r => r.score_percentage)).length : ℚ) *
      avg_score_percentage
        [⟨"s1", "A", 1, 2, 50⟩, ⟨"s2", "A", 2, 2, 100⟩] "A" =
      ((([⟨"s1", "A", 1, 2, 50⟩, ⟨"s2", "A", 2, 2, 100⟩] :
          List SectionPerf).filter (fun r => r.sec == "A")).map
        (fun r => r.score_percentage)).sum) ∧
    ((([⟨"s1", 3, 4, 75⟩] : List OverallPerf).length : ℚ) *
      avg_overall_performance [⟨"s1", 3, 4, 75⟩] =
      (([⟨"s1", 3, 4, 75⟩] : List OverallPerf).map
        (fun r => r.overall_score)).sum) ∧
    avg_score_percentage
      (([⟨"s1", "A", 1, 2, 50⟩, ⟨"s2", "A", 2, 2, 100⟩] :
        List SectionPerf).map (fun r => { r with count := 0 })) "A" =
      avg_score_percentage
        [⟨"s1", "A", 1, 2, 50⟩, ⟨"s2", "A", 2, 2, 100⟩] "A" ∧
    avg_overall_performance
      (([⟨"s1", 3, 4, 75⟩] : List OverallPerf).map
        (fun r => { r with count := 0 })) =
      avg_overall_performance [⟨"s1", 3, 4, 75⟩] ∧
    avg_score_percentage
      [⟨"s1", "A", 1, 2, 50⟩, ⟨"s2", "A", 2, 2, 100⟩] "A" = 75) :=
  ⟨by decide, by decide,
    calculate_average_performance_spec
      [⟨"s1", "A", 1, 2, 50⟩, ⟨"s2", "A", 2, 2, 100⟩]
      [⟨"s1", 3, 4, 75⟩] "A" (fun _ => 0) (fun _ => 0)
      (by decide) (by decide)⟩

/-- A row of the per-student `comparison` frame assembled by
`identify_strengths_weaknesses` (model.py lines 44–52): section, the
student's score, the class average for the section, and their
difference. -/
structure ComparisonRow where
  sec : String
  score : ℚ
  avg_score : ℚ
  diff : ℚ
deriving DecidableEq, Repr

/-- The `comparison` frame of `identify_strengths_weaknesses`: one row per
section row of the student, with `diff = score − class average`.  The
class-average table, which the source indexes by section
(`avg_section_performance[...]['avg_score_percentage'].values[0]`), is
modelled as a total lookup function. -/
def buildComparison (studentPerf : List SectionPerf) (avg : String → ℚ) :
    List ComparisonRow :=
  studentPerf.map (fun r =>
    ⟨r.sec, r.score_percentage, avg r.sec, r.score_percentage - avg r.sec⟩)

/-- One insertion step of the descending-by-`diff` sort that models
`sort_values('diff', ascending=False)`. -/
def insertDescByDiff (x : ComparisonRow) :
    List ComparisonRow → List ComparisonRow
  | [] => [x]
  | y :: ys =>
    if y.diff < x.diff then x :: y :: ys else y :: insertDescByDiff x ys

/-- The descending-by-`diff` sort applied to the comparison frame. -/
def sortByDiffDesc (l : List ComparisonRow) : List ComparisonRow :=
  l.foldr insertDescByDiff []

/-- Embedding of the per-student body of
`model.identify_strengths_weaknesses` (model.py lines 44–58): sort the
comparison frame by `diff` descending, return `head(2)` of the `section`
column as strengths and `tail(2)` as weaknesses. -/
def identify_strengths_weaknesses (studentPerf : List SectionPerf)
    (avg : String → ℚ) : List String × List String :=
  let sorted := sortByDiffDesc (buildComparison studentPerf avg)
  ((sorted.take 2).map (fun r => r.sec),
   (sorted.drop (sorted.length - 2)).map (fun r => r.sec))

/-- Inserting into the descending sort permutes consing. -/
lemma insertDescByDiff_perm (x : ComparisonRow) :
    ∀ l : List ComparisonRow, (insertDescByDiff x l).Perm (x :: l)
  | [] => List.Perm.refl _
  | y :: ys => by
    unfold insertDescByDiff
    by_cases h : y.diff < x.diff
    · rw [if_pos h]
    · rw [if_neg h]
      exact ((insertDescByDiff_perm x ys).cons y).trans (List.Perm.swap x y ys)

/-- The descending sort is a permutation of its input. -/
lemma sortByDiffDesc_perm (l : List ComparisonRow) :
    (sortByDiffDesc l).Perm l := by
  induction l with
  | nil => exact List.Perm.refl _
  | cons x xs ih =>
    simp only [sortByDiffDesc, List.foldr_cons]
    exact (insertDescByDiff_perm x _).trans (ih.cons x)

/-- Claim C2: for a student whose performance frame carries exactly the
four sections, `identify_strengths_weaknesses` yields 2 strengths and
2 weaknesses that together are exactly the four sections, with no section
in both lists. -/
theorem identify_strengths_weaknesses_partition
    (studentPerf : List SectionPerf) (avg : String → ℚ)
    (h : (studentPerf.map (fun r => r.sec)).Perm ["A", "B", "C", "D"]) :
    (identify_strengths_weaknesses studentPerf avg).1.length = 2 ∧
    (identify_strengths_weaknesses studentPerf avg).2.length = 2 ∧
    ((identify_strengths_weaknesses studentPerf avg).1 ++
      (identify_strengths_weaknesses studentPerf avg).2).Perm
      ["A", "B", "C", "D"] ∧
    ∀ x, x ∈ (identify_strengths_weaknesses studentPerf avg).1 →
      x ∉ (identify_strengths_weaknesses studentPerf avg).2 := by
  have hcmap : (buildComparison studentPerf avg).map (fun r => r.sec) =
      studentPerf.map (fun r => r.sec) := by
    simp [buildComparison, List.map_map, Function.comp]
  have hperm : (sortByDiffDesc (buildComparison studentPerf avg)).Perm
      (buildComparison studentPerf avg) := sortByDiffDesc_perm _
  set sorted := sortByDiffDesc (buildComparison studentPerf avg) with hsdef
  have hsmap : (sorted.map (fun r => r.sec)).Perm ["A", "B", "C", "D"] := by
    have hm := hperm.map (fun r => r.sec)
    rw [hcmap] at hm
    exact hm.trans h
  have hlen : sorted.length = 4 := by
    have := hsmap.length_eq
    simpa using this
  have happ : (sorted.take 2).map (fun r => r.sec) ++
      (sorted.drop (sorted.length - 2)).map (fun r => r.sec) =
      sorted.map (fun r => r.sec) := by
    rw [hlen, show (4 : Nat) - 2 = 2 from rfl, ← List.map_append,
      List.take_append_drop]
  have hnodup : ((sorted.take 2).map (fun r => r.sec) ++
      (sorted.drop (sorted.length - 2)).map (fun r => r.sec)).Nodup := by
    rw [happ]
    exact hsmap.nodup_iff.mpr (by decide)
  refine ⟨?_, ?_, ?_, ?_⟩
  · simp only [identify_strengths_weaknesses]
    rw [List.length_map, List.length_take, hlen]
    decide
  · simp only [identify_strengths_weaknesses]
    rw [List.length_map, List.length_drop, hlen]
  · simp only [identify_strengths_weaknesses]
    rw [happ]
    exact hsmap
  · simp only [identify_strengths_weaknesses]
    intro x hx hx'
    have hdisj := (List.nodup_append.mp hnodup).2.2
    exact hdisj hx hx'

/-- A four-section performance frame for one student, used to exercise the
strengths/weaknesses partition. -/
def perfFourSections : List SectionPerf :=
  [⟨"s1", "A", 1, 2, 50⟩, ⟨"s1", "B", 2, 2, 100⟩,
   ⟨"s1", "C", 0, 2, 0⟩, ⟨"s1", "D", 1, 4, 25⟩]

/-- Claim C2 witness: the partition theorem applied to the concrete
four-section frame with class average 40% in every section. -/
theorem identify_strengths_weaknesses_partition_witness :
    ((perfFourSections.map (fun r => r.sec)).Perm ["A", "B", "C", "D"]) ∧
    ((identify_strengths_weaknesses perfFourSections (fun _ => 40)).1.length
        = 2 ∧
    (identify_strengths_weaknesses perfFourSections (fun _ => 40)).2.length
        = 2 ∧
    ((identify_strengths_weaknesses perfFourSections (fun _ => 40)).1 ++
      (identify_strengths_weaknesses perfFourSections (fun _ => 40)).2).Perm
      ["A", "B", "C", "D"] ∧
    ∀ x, x ∈ (identify_strengths_weaknesses perfFourSections
        (fun _ => 40)).1 →
      x ∉ (identify_strengths_weaknesses perfFourSections (fun _ => 40)).2) :=
  ⟨by decide,
    identify_strengths_weaknesses_partition perfFourSections (fun _ => 40)
      (by decide)⟩

end Shiksha
